import Mathlib

/-!
Verification of the PAC resilience core (dual-page boot journal and health
oracle) against its natural-language specification.  The definitions below
are a shallow embedding of the C sources `src/journal/boot_journal.c` and
`src/health_check/health_check.c`: machine integers are modelled as `Nat`
(with explicit `% 2^w` where the C code truncates), the on-disk journal is a
pair of records plus an explicit environment of injectable read/write
failures, and every definition is executable.
-/

/-! ## Journal constants (boot_journal.h) -/

def JOURNAL_MAGIC : Nat := 0xA771A771

def JOURNAL_VERSION : Nat := 1

def TIER_1 : Nat := 1

def TIER_2 : Nat := 2

def TIER_3 : Nat := 3

def FLAG_EMERGENCY : Nat := 1

def FLAG_QUARANTINE : Nat := 2

def FLAG_BROWNOUT : Nat := 4

def FLAG_DIRTY : Nat := 8

def FLAG_NETWORK_GATED : Nat := 16

def DEFAULT_TRIES_T2 : Nat := 3

def DEFAULT_TRIES_T3 : Nat := 3

def JOURNAL_OK : Int := 0

/-- `JOURNAL_ERR_IO` in boot_journal.h (underlying read/write/fsync failure). -/
def JOURNAL_ERR_IOFAIL : Int := -1

def JOURNAL_ERR_CORRUPT : Int := -2

def JOURNAL_ERR_INVALID : Int := -3

def JOURNAL_ERR_NOMEM : Int := -4

/-- `struct BootRecord` (boot_journal.h).  Field widths in the C struct are
u32/u8/u8/u8/u8/u32/u64/u64/u32/u32; here each field is a `Nat` and the
width shows up in the byte serialization used by the CRC. -/
structure BootRecord where
  version : Nat
  tier : Nat
  tries_t2 : Nat
  tries_t3 : Nat
  rollback_idx : Nat
  flags : Nat
  boot_count : Nat
  timestamp : Nat
  crc32 : Nat
  trailer : Nat
deriving DecidableEq, Repr

/-! ## CRC engine (boot_journal.c, crc32_init_table / crc32_compute) -/

/-- One round of the table generator: `crc = (crc & 1) ? (crc >> 1) ^ poly : crc >> 1`. -/
def crc32_round (crc : Nat) : Nat :=
  if crc % 2 = 1 then (crc / 2) ^^^ 0xEDB88320 else crc / 2

/-- Entry `i` of the 256-entry lookup table: eight rounds starting from `i`. -/
def crc32_table (i : Nat) : Nat :=
  crc32_round^[8] i

/-- One byte step of `crc32_compute`: `crc = (crc >> 8) ^ table[(crc ^ b) & 0xFF]`. -/
def crc32_update (crc b : Nat) : Nat :=
  (crc / 256) ^^^ crc32_table ((crc ^^^ b) % 256)

/-- `crc32_compute`: initial value `0xFFFFFFFF`, byte at a time, final complement
(`~crc` on a u32 is `crc ^^^ 0xFFFFFFFF`). -/
def crc32_compute (data : List Nat) : Nat :=
  (data.foldl crc32_update 0xFFFFFFFF) ^^^ 0xFFFFFFFF

/-- `w` bytes of `x`, little-endian (the packed on-disk layout). -/
def leBytes (w x : Nat) : List Nat :=
  (List.range w).map (fun i => x / 256 ^ i % 256)

/-- The byte prefix `bytes[0 .. offsetof(crc32))` of a packed `BootRecord`:
version (u32), tier, tries_t2, tries_t3, rollback_idx (u8 each), flags (u32),
boot_count (u64), timestamp (u64) — crc32 and trailer excluded. -/
def record_prefix_bytes (rec : BootRecord) : List Nat :=
  leBytes 4 rec.version ++ leBytes 1 rec.tier ++ leBytes 1 rec.tries_t2 ++
    leBytes 1 rec.tries_t3 ++ leBytes 1 rec.rollback_idx ++ leBytes 4 rec.flags ++
    leBytes 8 rec.boot_count ++ leBytes 8 rec.timestamp

/-- `record_calculate_crc`: CRC over the prefix up to (excluding) `crc32`. -/
def record_calculate_crc (rec : BootRecord) : Nat :=
  crc32_compute (record_prefix_bytes rec)

/-! ## Boot record codec -/

/-- `journal_validate` (boot_journal.c lines 97-113): trailer, CRC, version,
tier range, in that order. -/
def journal_validate (rec : BootRecord) : Bool :=
  if rec.trailer ≠ JOURNAL_MAGIC then false
  else if rec.crc32 ≠ record_calculate_crc rec then false
  else if rec.version ≠ JOURNAL_VERSION then false
  else if rec.tier < TIER_1 ∨ rec.tier > TIER_3 then false
  else true

/-- `journal_create_default` (boot_journal.c lines 115-128); `now` stands for
`time(NULL)`. -/
def journal_create_default (now : Nat) : BootRecord :=
  let rec0 : BootRecord :=
    { version := JOURNAL_VERSION, tier := TIER_1, tries_t2 := DEFAULT_TRIES_T2,
      tries_t3 := DEFAULT_TRIES_T3, rollback_idx := 0, flags := 0,
      boot_count := 0, timestamp := now, crc32 := 0, trailer := JOURNAL_MAGIC }
  { rec0 with crc32 := record_calculate_crc rec0 }

/-! ## In-memory mutators (boot_journal.c lines 313-348) -/

/-- `journal_decrement_tries`: returns the C `int` result paired with the
record after the call (the C function mutates `*rec` in place). -/
def journal_decrement_tries (rec : BootRecord) (tier : Nat) : Int × BootRecord :=
  if tier = TIER_2 then
    let t2 := if rec.tries_t2 > 0 then rec.tries_t2 - 1 else rec.tries_t2
    ((t2 : Int), { rec with tries_t2 := t2 })
  else if tier = TIER_3 then
    let t3 := if rec.tries_t3 > 0 then rec.tries_t3 - 1 else rec.tries_t3
    ((t3 : Int), { rec with tries_t3 := t3 })
  else
    (-1, rec)

/-- `journal_reset_tries`. -/
def journal_reset_tries (rec : BootRecord) : BootRecord :=
  { rec with tries_t2 := DEFAULT_TRIES_T2, tries_t3 := DEFAULT_TRIES_T3 }

/-- `journal_set_flag`: `rec->flags |= flag`. -/
def journal_set_flag (rec : BootRecord) (flag : Nat) : BootRecord :=
  { rec with flags := rec.flags ||| flag }

/-- `journal_clear_flag`: `rec->flags &= ~flag`; on a u32, `~flag` is
`flag ^^^ 0xFFFFFFFF`. -/
def journal_clear_flag (rec : BootRecord) (flag : Nat) : BootRecord :=
  { rec with flags := rec.flags &&& (flag ^^^ 0xFFFFFFFF) }

/-- `journal_has_flag`. -/
def journal_has_flag (rec : BootRecord) (flag : Nat) : Bool :=
  rec.flags &&& flag ≠ 0

/-! ## Journal store IO model

The file holds exactly two pages (offsets 0 and `sizeof(BootRecord)`).
`JournalEnv` injects the outcome of each syscall: whether the `read` of each
page succeeds, whether the `write`+`fsync` of each page succeeds, and the
content a page is left with when its write fails part-way (a torn write). -/

inductive PageId where
  | A
  | B
deriving DecidableEq, Repr

structure Disk where
  pageA : BootRecord
  pageB : BootRecord
deriving DecidableEq, Repr

structure JournalEnv where
  readAok : Bool
  readBok : Bool
  writeAok : Bool
  writeBok : Bool
  tornA : BootRecord
  tornB : BootRecord

/-- `write_page` (boot_journal.c lines 76-95): on success the page holds
`rec`; on failure (short write / fsync error) the page content is the
environment-chosen torn value and `JOURNAL_ERR_IO` is returned. -/
def write_page (env : JournalEnv) (pid : PageId) (rec : BootRecord) (disk : Disk) :
    Int × Disk :=
  match pid with
  | PageId.A =>
      if env.writeAok then (JOURNAL_OK, { disk with pageA := rec })
      else ( JOURNAL_ERR_IOFAIL, { disk with pageA := env.tornA })
  | PageId.B =>
      if env.writeBok then (JOURNAL_OK, { disk with pageB := rec })
      else ( JOURNAL_ERR_IOFAIL, { disk with pageB := env.tornB })

/-- `journal_recover` (boot_journal.c lines 180-222).  Returns the C status,
the record written to `*rec` (`none` when the function returns before
touching it), the disk after any repair writes, and the log of `write_page`
calls issued (pages and contents, in call order).  A failed `read_page`
leaves the page treated as invalid, exactly as in the source. -/
def journal_recover (initialized : Bool) (env : JournalEnv) (disk : Disk) (now : Nat) :
    Int × Option BootRecord × Disk × List (PageId × BootRecord) :=
  if initialized = false then ( JOURNAL_ERR_INVALID, none, disk, [])
  else
    let a_valid := env.readAok && journal_validate disk.pageA
    let b_valid := env.readBok && journal_validate disk.pageB
    if a_valid && b_valid then
      if disk.pageA.boot_count ≥ disk.pageB.boot_count then
        (JOURNAL_OK, some disk.pageA, disk, [])
      else
        (JOURNAL_OK, some disk.pageB, disk, [])
    else if a_valid then
      let r := write_page env PageId.B disk.pageA disk
      (JOURNAL_OK, some disk.pageA, r.2, [(PageId.B, disk.pageA)])
    else if b_valid then
      let r := write_page env PageId.A disk.pageB disk
      (JOURNAL_OK, some disk.pageB, r.2, [(PageId.A, disk.pageB)])
    else
      let rec0 := journal_create_default now
      let r1 := write_page env PageId.A rec0 disk
      let r2 := write_page env PageId.B rec0 r1.2
      (JOURNAL_OK, some rec0, r2.2, [(PageId.A, rec0), (PageId.B, rec0)])

/-- The commit image built by `journal_write` (boot_journal.c lines 247-251):
the caller's record with `timestamp`, `trailer` and `crc32` regenerated. -/
def journal_write_updated (rec : BootRecord) (now : Nat) : BootRecord :=
  let u := { rec with timestamp := now, trailer := JOURNAL_MAGIC }
  { u with crc32 := record_calculate_crc u }

/-- `journal_write` (boot_journal.c lines 237-264).  `recArg = none` models a
NULL `rec` pointer.  Returns the C status, the disk after the attempted
writes, and the log of `write_page` calls issued. -/
def journal_write (initialized : Bool) (recArg : Option BootRecord)
    (env : JournalEnv) (disk : Disk) (now : Nat) :
    Int × Disk × List (PageId × BootRecord) :=
  match recArg with
  | none => ( JOURNAL_ERR_INVALID, disk, [])
  | some rec =>
    if initialized = false then ( JOURNAL_ERR_INVALID, disk, [])
    else
      let updated := journal_write_updated rec now
      if journal_validate updated = false then ( JOURNAL_ERR_INVALID, disk, [])
      else
        let rA := write_page env PageId.A updated disk
        if rA.1 ≠ JOURNAL_OK then ( JOURNAL_ERR_IOFAIL, rA.2, [(PageId.A, updated)])
        else
          let rB := write_page env PageId.B updated rA.2
          if rB.1 ≠ JOURNAL_OK then
            ( JOURNAL_ERR_IOFAIL, rB.2, [(PageId.A, updated), (PageId.B, updated)])
          else
            (JOURNAL_OK, rB.2, [(PageId.A, updated), (PageId.B, updated)])

/-! ## Health check data model (health_check.h) -/

def HEALTH_OK : Int := 0

def HEALTH_DEGRADED : Int := 1

def HEALTH_CRITICAL : Int := 2

def HEALTH_ERROR : Int := -1

structure HealthCheckResult where
  ok : Bool
  message : String
  value : Nat
deriving DecidableEq, Repr

structure HealthConfig where
  ecc_threshold : Nat
  mem_min_free_kb : Nat
  storage_min_free_pct : Nat
  network_timeout_sec : Nat
  temp_max_celsius : Nat
  verbose : Bool
deriving DecidableEq, Repr

def HEALTH_CONFIG_DEFAULT : HealthConfig :=
  { ecc_threshold := 10, mem_min_free_kb := 10240, storage_min_free_pct := 5,
    network_timeout_sec := 2, temp_max_celsius := 85, verbose := false }

structure HealthReport where
  timestamp : Nat
  watchdog : HealthCheckResult
  ecc : HealthCheckResult
  storage : HealthCheckResult
  network : HealthCheckResult
  memory : HealthCheckResult
  temperature : HealthCheckResult
  overall_score : Nat
  max_score : Nat
  overall_status : String
deriving DecidableEq, Repr

/-- The host environment the probes read (health_check.c).  Each field is the
observable outcome of the corresponding syscalls:
 * `dev_watchdog_ischar` / `dev_watchdog0_ischar` — `stat` + `S_ISCHR` on
   `/dev/watchdog` and `/dev/watchdog0`;
 * `edac_exists` — `stat("/sys/devices/system/edac")`;
 * `edac_mc` — `opendir` result for `.../edac/mc` (`none` = open failed) with,
   per `mc*` entry, the `read_file_long` results for `ce_count`/`ue_count`
   (`-1` = file unreadable, as `read_file_long` returns);
 * `statvfs_root` — `statvfs("/")` as `(f_blocks, f_bavail)`, `none` = failure;
 * `ping_8888` / `ping_1111` — whether `ping -c 1 -W t <target>` exits 0;
 * `meminfo` — `none` when `/proc/meminfo` cannot be opened, otherwise the
   parsed `(MemAvailable, MemFree, MemTotal)` values, `-1` for an absent line;
 * `thermal_zones` — `read_file_long` of each `thermal_zone*/temp` entry;
 * `hwmon_exists` — `opendir("/sys/class/hwmon")` success;
 * `hwmon_temps` — `read_file_long` of each readable `hwmon*/temp*_input`. -/
structure HealthEnv where
  dev_watchdog_ischar : Bool
  dev_watchdog0_ischar : Bool
  edac_exists : Bool
  edac_mc : Option (List (Int × Int))
  statvfs_root : Option (Nat × Nat)
  ping_8888 : Bool
  ping_1111 : Bool
  meminfo : Option (Int × Int × Int)
  thermal_zones : List Int
  hwmon_exists : Bool
  hwmon_temps : List Int

/-! ## Health probes (health_check.c) -/

/-- `health_check_watchdog` (health_check.c lines 49-68). -/
def health_check_watchdog (env : HealthEnv) : HealthCheckResult :=
  if env.dev_watchdog_ischar then
    { ok := true, message := "Watchdog device present at /dev/watchdog", value := 0 }
  else if env.dev_watchdog0_ischar then
    { ok := true, message := "Watchdog device present at /dev/watchdog0", value := 0 }
  else
    { ok := false, message := "No watchdog device found", value := 0 }

/-- `health_check_ecc` (health_check.c lines 70-118); `ce_total`/`ue_total`
are u32 accumulators, hence the `% 2^32`. -/
def health_check_ecc (threshold : Nat) (env : HealthEnv) : HealthCheckResult :=
  if env.edac_exists = false then
    { ok := true, message := "EDAC not available, assuming OK", value := 0 }
  else
    let entries := env.edac_mc.getD []
    let ce_total : Nat := entries.foldl
      (fun acc p => if p.1 ≥ 0 then (acc + p.1.toNat) % 4294967296 else acc) 0
    let ue_total : Nat := entries.foldl
      (fun acc p => if p.2 ≥ 0 then (acc + p.2.toNat) % 4294967296 else acc) 0
    if ue_total > 0 then
      { ok := false, message := s!"Uncorrectable ECC errors detected: {ue_total}",
        value := ce_total }
    else if ce_total < threshold then
      { ok := true, message := s!"ECC errors within threshold: {ce_total} < {threshold}",
        value := ce_total }
    else
      { ok := false, message := s!"ECC errors exceed threshold: {ce_total} >= {threshold}",
        value := ce_total }

/-- `health_check_storage` (health_check.c lines 120-144); `free_pct` is
declared `uint8_t`, so the quotient is truncated mod 256. -/
def health_check_storage (min_free_pct : Nat) (env : HealthEnv) : HealthCheckResult :=
  match env.statvfs_root with
  | none =>
      { ok := false, message := "Failed to check storage", value := 0 }
  | some bt =>
      let free_pct := bt.2 * 100 / bt.1 % 256
      if free_pct ≥ min_free_pct then
        { ok := true, message := s!"Storage healthy: {free_pct}% free", value := free_pct }
      else
        { ok := false, message := s!"Storage low: {free_pct}% free (min: {min_free_pct}%)",
          value := free_pct }

/-- `health_check_network` (health_check.c lines 146-166); the timeout only
shapes the ping command line, the outcome is the injected exit status. -/
def health_check_network (timeout_sec : Nat) (env : HealthEnv) : HealthCheckResult :=
  if env.ping_8888 then
    { ok := true, message := "Network reachable (tested: 8.8.8.8)", value := 0 }
  else if env.ping_1111 then
    { ok := true, message := "Network reachable (tested: 1.1.1.1)", value := 0 }
  else
    { ok := false, message := "Network unreachable", value := 0 }

/-- `health_check_memory` (health_check.c lines 168-211); `result->value` is a
u32, hence the truncation.  The percent figure appears only inside the
human message and is elided from the modelled message text. -/
def health_check_memory (min_free_kb : Nat) (env : HealthEnv) : HealthCheckResult :=
  match env.meminfo with
  | none =>
      { ok := false, message := "Failed to read /proc/meminfo", value := 0 }
  | some mi =>
      let mem_avail := if mi.1 ≥ 0 then mi.1 else mi.2.1
      if mem_avail < 0 ∨ mi.2.2 < 0 then
        { ok := false, message := "Failed to parse memory info", value := 0 }
      else
        let v := mem_avail.toNat % 4294967296
        if mem_avail ≥ (min_free_kb : Int) then
          { ok := true, message := s!"Memory healthy: {mem_avail}KB available", value := v }
        else
          { ok := false, message := s!"Low memory: {mem_avail}KB available", value := v }

/-- One sensor reading folded into `(max_temp, temp_found)`: accepted only when
`temp_millic > 0`, converted as `temp_c = temp_millic / 1000` truncated into a
`uint8_t`. -/
def temp_fold (st : Nat × Bool) (temp_millic : Int) : Nat × Bool :=
  if temp_millic > 0 then
    let temp_c := temp_millic.toNat / 1000 % 256
    (if temp_c > st.1 then temp_c else st.1, true)
  else st

/-- `health_check_temperature` as the source behaves (health_check.c lines
213-282).  The thermal-zone loop reads every `thermal_zone*/temp`.  The hwmon
branch at line 240 calls `readdir(thermal_dir)` — a handle that the first
loop already exhausted and line 235 closed — instead of `readdir(hwmon_dir)`,
so it never yields an entry and no hwmon sensor is ever read. -/
def health_check_temperature (max_celsius : Nat) (env : HealthEnv) : HealthCheckResult :=
  let st := env.thermal_zones.foldl temp_fold (0, false)
  if st.2 = false then
    { ok := true, message := "Temperature monitoring not available", value := 0 }
  else if st.1 ≤ max_celsius then
    { ok := true, message := s!"Temperature normal: {st.1}C (max: {max_celsius}C)",
      value := st.1 }
  else
    { ok := false, message := s!"Temperature critical: {st.1}C (max: {max_celsius}C)",
      value := st.1 }

/-- The temperature probe as the specification prescribes it (§4.4): the hwmon
branch iterates the entries of `/sys/class/hwmon` itself, so every readable
`temp*_input` with a positive reading feeds the running maximum alongside the
thermal zones.  Kept separate from `health_check_temperature` to state the
divergence of the source's hwmon branch. -/
def health_check_temperature_as_specified (max_celsius : Nat) (env : HealthEnv) :
    HealthCheckResult :=
  let st1 := env.thermal_zones.foldl temp_fold (0, false)
  let st := if env.hwmon_exists then env.hwmon_temps.foldl temp_fold st1 else st1
  if st.2 = false then
    { ok := true, message := "Temperature monitoring not available", value := 0 }
  else if st.1 ≤ max_celsius then
    { ok := true, message := s!"Temperature normal: {st.1}C (max: {max_celsius}C)",
      value := st.1 }
  else
    { ok := false, message := s!"Temperature critical: {st.1}C (max: {max_celsius}C)",
      value := st.1 }

/-! ## Health aggregator (health_check.c lines 284-315, 410-418) -/

/-- `health_score_to_status` (health_check.c lines 410-418). -/
def health_score_to_status (score maxScore : Nat) : String :=
  if score ≥ maxScore * 5 / 6 then "healthy"
  else if score ≥ maxScore / 2 then "degraded"
  else "critical"

/-- The score accumulation of `health_check_run` (lines 299-305): start at 0,
one increment per probe with `ok == true`. -/
def overall_score_calc (w e s n m t : Bool) : Nat :=
  let sc : Nat := 0
  let sc := if w then sc + 1 else sc
  let sc := if e then sc + 1 else sc
  let sc := if s then sc + 1 else sc
  let sc := if n then sc + 1 else sc
  let sc := if m then sc + 1 else sc
  let sc := if t then sc + 1 else sc
  sc

/-- The verdict returns of `health_check_run` (lines 309-314). -/
def verdict_of_score (score : Nat) : Int :=
  if score ≥ 5 then HEALTH_OK
  else if score ≥ 3 then HEALTH_DEGRADED
  else HEALTH_CRITICAL

/-- `health_check_run` (health_check.c lines 284-315).  A NULL `config`
pointer is the `none` case and selects the defaults; the NULL-`report` early
return (`HEALTH_ERROR`) is outside this by-value model. -/
def health_check_run (config : Option HealthConfig) (env : HealthEnv) (now : Nat) :
    Int × HealthReport :=
  let cfg := config.getD HEALTH_CONFIG_DEFAULT
  let w := health_check_watchdog env
  let e := health_check_ecc cfg.ecc_threshold env
  let s := health_check_storage cfg.storage_min_free_pct env
  let n := health_check_network cfg.network_timeout_sec env
  let m := health_check_memory cfg.mem_min_free_kb env
  let t := health_check_temperature cfg.temp_max_celsius env
  let score := overall_score_calc w.ok e.ok s.ok n.ok m.ok t.ok
  let report : HealthReport :=
    { timestamp := now, watchdog := w, ecc := e, storage := s, network := n,
      memory := m, temperature := t, overall_score := score, max_score := 6,
      overall_status := health_score_to_status score 6 }
  (verdict_of_score score, report)

/-- Class of a status string, for comparing the human-readable status with the
numeric verdict: "healthy" ↔ `HEALTH_OK`, "degraded" ↔ `HEALTH_DEGRADED`,
"critical" ↔ `HEALTH_CRITICAL`. -/
def status_class (s : String) : Int :=
  if s = "healthy" then HEALTH_OK
  else if s = "degraded" then HEALTH_DEGRADED
  else HEALTH_CRITICAL

/-! ## Common witness fixtures -/

/-- A default record (timestamp 0); valid by construction. -/
def rec_default0 : BootRecord := journal_create_default 0

/-- An environment where every read and write succeeds. -/
def envAllOk : JournalEnv :=
  { readAok := true, readBok := true, writeAok := true, writeBok := true,
    tornA := rec_default0, tornB := rec_default0 }

/-- A disk whose two pages hold valid default records (differing timestamps). -/
def diskAB : Disk :=
  { pageA := journal_create_default 0, pageB := journal_create_default 1 }

/-! ## Helper lemmas -/

/-- Iterating `journal_decrement_tries` on one tier (the record threaded
through, the returned count dropped). -/
def decrement_tries_iter (rec : BootRecord) (tier : Nat) : Nat → BootRecord
  | 0 => rec
  | n + 1 => (journal_decrement_tries (decrement_tries_iter rec tier n) tier).2

lemma journal_decrement_tries_two (r : BootRecord) :
    journal_decrement_tries r TIER_2 =
      (((if r.tries_t2 > 0 then r.tries_t2 - 1 else r.tries_t2 : Nat) : Int),
        { r with tries_t2 := if r.tries_t2 > 0 then r.tries_t2 - 1 else r.tries_t2 }) := rfl

lemma journal_decrement_tries_three (r : BootRecord) :
    journal_decrement_tries r TIER_3 =
      (((if r.tries_t3 > 0 then r.tries_t3 - 1 else r.tries_t3 : Nat) : Int),
        { r with tries_t3 := if r.tries_t3 > 0 then r.tries_t3 - 1 else r.tries_t3 }) := rfl

lemma journal_decrement_tries_other (r : BootRecord) (tier : Nat)
    (h2 : tier ≠ TIER_2) (h3 : tier ≠ TIER_3) :
    journal_decrement_tries r tier = (-1, r) := by
  simp [journal_decrement_tries, h2, h3]

lemma decrement_tries_t2_step (r : BootRecord) :
    (journal_decrement_tries r TIER_2).2.tries_t2 = r.tries_t2 - 1 := by
  rw [journal_decrement_tries_two]
  simp only
  split <;> omega

lemma decrement_tries_t3_step (r : BootRecord) :
    (journal_decrement_tries r TIER_3).2.tries_t3 = r.tries_t3 - 1 := by
  rw [journal_decrement_tries_three]
  simp only
  split <;> omega

lemma decrement_tries_iter_t2 (rec : BootRecord) (n : Nat) :
    (decrement_tries_iter rec TIER_2 n).tries_t2 = rec.tries_t2 - n := by
  induction n with
  | zero => simp [decrement_tries_iter]
  | succ n ih =>
      simp only [decrement_tries_iter, decrement_tries_t2_step, ih]
      omega

lemma decrement_tries_iter_t3 (rec : BootRecord) (n : Nat) :
    (decrement_tries_iter rec TIER_3 n).tries_t3 = rec.tries_t3 - n := by
  induction n with
  | zero => simp [decrement_tries_iter]
  | succ n ih =>
      simp only [decrement_tries_iter, decrement_tries_t3_step, ih]
      omega

/-- C4: `journal_decrement_tries` decrements `tries_t2` under tier 2 (and
`tries_t3` under tier 3) only when positive and returns the new remaining
count; the counters saturate at 0 under arbitrarily many calls; any tier
outside {2,3} yields -1 and leaves the record unchanged. -/
theorem journal_decrement_tries_spec (rec : BootRecord) :
    (0 < rec.tries_t2 →
      journal_decrement_tries rec TIER_2 =
        (((rec.tries_t2 - 1 : Nat) : Int), { rec with tries_t2 := rec.tries_t2 - 1 }))
    ∧ (rec.tries_t2 = 0 → journal_decrement_tries rec TIER_2 = (0, rec))
    ∧ (0 < rec.tries_t3 →
      journal_decrement_tries rec TIER_3 =
        (((rec.tries_t3 - 1 : Nat) : Int), { rec with tries_t3 := rec.tries_t3 - 1 }))
    ∧ (rec.tries_t3 = 0 → journal_decrement_tries rec TIER_3 = (0, rec))
    ∧ (∀ n, rec.tries_t2 ≤ n →
        (journal_decrement_tries (decrement_tries_iter rec TIER_2 n) TIER_2).1 = 0)
    ∧ (∀ n, rec.tries_t3 ≤ n →
        (journal_decrement_tries (decrement_tries_iter rec TIER_3 n) TIER_3).1 = 0)
    ∧ (∀ tier, tier ≠ TIER_2 → tier ≠ TIER_3 →
        journal_decrement_tries rec tier = (-1, rec)) := by
  refine ⟨?_, ?_, ?_, ?_, ?_, ?_, ?_⟩
  · intro h
    rw [journal_decrement_tries_two, if_pos h]
  · intro h
    rw [journal_decrement_tries_two, if_neg (by omega)]
    show ((rec.tries_t2 : Int), rec) = ((0 : Int), rec)
    simp [h]
  · intro h
    rw [journal_decrement_tries_three, if_pos h]
  · intro h
    rw [journal_decrement_tries_three, if_neg (by omega)]
    show ((rec.tries_t3 : Int), rec) = ((0 : Int), rec)
    simp [h]
  · intro n hn
    have h0 : (decrement_tries_iter rec TIER_2 n).tries_t2 = 0 := by
      rw [decrement_tries_iter_t2]; omega
    rw [journal_decrement_tries_two]
    simp only
    rw [if_neg (by omega), h0]
    simp
  · intro n hn
    have h0 : (decrement_tries_iter rec TIER_3 n).tries_t3 = 0 := by
      rw [decrement_tries_iter_t3]; omega
    rw [journal_decrement_tries_three]
    simp only
    rw [if_neg (by omega), h0]
    simp
  · intro tier h2 h3
    exact journal_decrement_tries_other rec tier h2 h3

/-- C4 witness: a fresh record starts with `tries_t2 = 3`; after 5 calls for
tier 2 the call still returns 0, and tier 7 is rejected. -/
theorem journal_decrement_tries_spec_witness :
    (journal_decrement_tries (decrement_tries_iter rec_default0 TIER_2 5) TIER_2).1 = 0 :=
  (journal_decrement_tries_spec rec_default0).2.2.2.2.1 5 (by decide)

/-! ## C8: set/clear flag algebra -/

lemma land_not_lor_eq_lor (r f : Nat) (hr : r < 4294967296) :
    r &&& (f ^^^ 0xFFFFFFFF) ||| f = r ||| f := by
  apply Nat.eq_of_testBit_eq
  intro i
  rw [Nat.testBit_or, Nat.testBit_or, Nat.testBit_and, Nat.testBit_xor]
  by_cases hi : i < 32
  · have hM : Nat.testBit 0xFFFFFFFF i = true := by
      have h32 : (0xFFFFFFFF : Nat) = 2 ^ 32 - 1 := by norm_num
      rw [h32, Nat.testBit_two_pow_sub_one]
      simp [hi]
    rw [hM]
    cases r.testBit i <;> cases f.testBit i <;> simp
  · have hr0 : r.testBit i = false := by
      apply Nat.testBit_lt_two_pow
      calc r < 4294967296 := hr
        _ = 2 ^ 32 := by norm_num
        _ ≤ 2 ^ i := Nat.pow_le_pow_right (by norm_num) (by omega)
    rw [hr0]
    simp

/-- C8: for u32 flag words, `set_flag (clear_flag R f) f = set_flag R f`. -/
theorem journal_set_clear_set_flag (rec : BootRecord) (f : Nat)
    (hr : rec.flags < 4294967296) (hf : f < 4294967296) :
    journal_set_flag (journal_clear_flag rec f) f = journal_set_flag rec f := by
  have h := land_not_lor_eq_lor rec.flags f hr
  simp [journal_set_flag, journal_clear_flag, h]

/-- C8 witness at a concrete record and mask. -/
theorem journal_set_clear_set_flag_witness :
    journal_set_flag (journal_clear_flag { rec_default0 with flags := 21 } 6) 6 =
      journal_set_flag { rec_default0 with flags := 21 } 6 :=
  journal_set_clear_set_flag { rec_default0 with flags := 21 } 6 (by decide) (by decide)

/-! ## Health fixtures -/

/-- A host with no watchdog device (neither `/dev/watchdog` nor
`/dev/watchdog0` is a character device) and no other sensors. -/
def envNoWatchdog : HealthEnv :=
  { dev_watchdog_ischar := false, dev_watchdog0_ischar := false,
    edac_exists := false, edac_mc := none, statvfs_root := none,
    ping_8888 := false, ping_1111 := false, meminfo := none,
    thermal_zones := [], hwmon_exists := false, hwmon_temps := [] }

/-- A host with no thermal zones and a single hwmon sensor
`/sys/class/hwmon/hwmon0/temp1_input` reading 90000 millidegrees (90 °C). -/
def envHotHwmon : HealthEnv :=
  { dev_watchdog_ischar := false, dev_watchdog0_ischar := false,
    edac_exists := false, edac_mc := none, statvfs_root := none,
    ping_8888 := false, ping_1111 := false, meminfo := none,
    thermal_zones := [], hwmon_exists := true, hwmon_temps := [90000] }

/-! ## C3: watchdog probe with no device -/

/-- C3 counterexample: with neither `/dev/watchdog` nor `/dev/watchdog0`
present as a character device, `health_check_watchdog` does NOT return
`ok = true` — refuting the claim at this concrete environment. -/
theorem health_check_watchdog_absent_not_ok :
    ¬ ((health_check_watchdog envNoWatchdog).ok = true) := by decide

/-- C3 amended: when neither watchdog device node exists as a character
device, `health_check_watchdog` returns `ok = false` with the message
"No watchdog device found" (the probe fails rather than treating the absent
sensor as OK). -/
theorem health_check_watchdog_absent (env : HealthEnv)
    (h0 : env.dev_watchdog_ischar = false) (h1 : env.dev_watchdog0_ischar = false) :
    (health_check_watchdog env).ok = false ∧
      (health_check_watchdog env).message = "No watchdog device found" := by
  simp [health_check_watchdog, h0, h1]

/-- C3 witness: the amended theorem applied to the concrete sensorless host. -/
theorem health_check_watchdog_absent_witness :
    (health_check_watchdog envNoWatchdog).ok = false ∧
      (health_check_watchdog envNoWatchdog).message = "No watchdog device found" :=
  health_check_watchdog_absent envNoWatchdog rfl rfl

/-! ## C5 / C6: aggregation -/

lemma overall_score_calc_count :
    ∀ w e s n m t : Bool,
      overall_score_calc w e s n m t = [w, e, s, n, m, t].count true ∧
        overall_score_calc w e s n m t ≤ 6 := by decide

lemma status_class_verdict_agree_le6 :
    ∀ sc : Nat, sc ≤ 6 →
      status_class (health_score_to_status sc 6) = verdict_of_score sc := by decide

/-- C5: for every configuration and probe environment, the report's
`overall_score` equals the number of the six stored probe results with
`ok = true`, lies in `0..6`, and `max_score = 6`. -/
theorem health_check_run_score_spec (config : Option HealthConfig)
    (env : HealthEnv) (now : Nat) :
    ((health_check_run config env now).2.overall_score =
      [(health_check_run config env now).2.watchdog.ok,
       (health_check_run config env now).2.ecc.ok,
       (health_check_run config env now).2.storage.ok,
       (health_check_run config env now).2.network.ok,
       (health_check_run config env now).2.memory.ok,
       (health_check_run config env now).2.temperature.ok].count true)
    ∧ (health_check_run config env now).2.overall_score ≤ 6
    ∧ (health_check_run config env now).2.max_score = 6 := by
  simp only [health_check_run]
  exact ⟨(overall_score_calc_count _ _ _ _ _ _).1,
         (overall_score_calc_count _ _ _ _ _ _).2, trivial⟩

/-- C6 counterexample: the claim asserts a score in `0..6` exists at which
the status class (ratio thresholds) and the verdict class (absolute
thresholds) disagree for `max_score = 6`; no such score exists. -/
theorem health_status_verdict_no_disagreement :
    ¬ ∃ sc : Nat, sc ≤ 6 ∧
      status_class (health_score_to_status sc 6) ≠ verdict_of_score sc := by decide

/-- C6 amended: the status string and the numeric verdict are computed by two
separate tables (ratio thresholds `⌊5·max/6⌋` and `⌊max/2⌋` versus absolute
thresholds 5 and 3), but at `max_score = 6` the thresholds coincide
(`⌊5·6/6⌋ = 5`, `⌊6/2⌋ = 3`), so for every configuration and probe outcome
the class of the report's `overall_status` equals `health_check_run`'s
verdict. -/
theorem health_status_verdict_agree (config : Option HealthConfig)
    (env : HealthEnv) (now : Nat) :
    status_class (health_check_run config env now).2.overall_status =
      (health_check_run config env now).1 := by
  simp only [health_check_run]
  exact status_class_verdict_agree_le6 _ (overall_score_calc_count _ _ _ _ _ _).2

/-! ## C7: the hwmon branch of the temperature probe -/

/-- C7: on a host whose only temperature source is a readable hwmon sensor at
90 °C with `max_celsius = 85`, the source's probe reports `ok = true` /
"not available" — its hwmon branch iterates the exhausted, closed thermal
directory handle instead of the hwmon directory, so the sensor is never
read — while the behavior the spec prescribes (iterating the hwmon
directory) reads 90 °C and fails the check. -/
theorem health_check_temperature_hwmon_not_read :
    (health_check_temperature 85 envHotHwmon).ok = true
    ∧ (health_check_temperature 85 envHotHwmon).message =
        "Temperature monitoring not available"
    ∧ (health_check_temperature_as_specified 85 envHotHwmon).ok = false
    ∧ (health_check_temperature_as_specified 85 envHotHwmon).value = 90 := by
  decide

/-! ## Journal write/recover theorems -/

lemma journal_validate_updated_iff (rec : BootRecord) (now : Nat) :
    journal_validate (journal_write_updated rec now) = true ↔
      (rec.version = JOURNAL_VERSION ∧ TIER_1 ≤ rec.tier ∧ rec.tier ≤ TIER_3) := by
  have hcrc : record_calculate_crc (journal_write_updated rec now) =
      (journal_write_updated rec now).crc32 := rfl
  have htr : (journal_write_updated rec now).trailer = JOURNAL_MAGIC := rfl
  have hver : (journal_write_updated rec now).version = rec.version := rfl
  have htier : (journal_write_updated rec now).tier = rec.tier := rfl
  simp only [journal_validate, hcrc, htr, hver, htier, ne_eq, not_true_eq_false, if_false]
  by_cases h1 : rec.version = JOURNAL_VERSION <;>
    by_cases h2 : rec.tier < TIER_1 ∨ rec.tier > TIER_3 <;>
      simp [h1, h2, TIER_1, TIER_3] <;> omega

lemma journal_write_status (rec : BootRecord) (env : JournalEnv) (disk : Disk) (now : Nat) :
    (journal_write true (some rec) env disk now).1 =
      (if journal_validate (journal_write_updated rec now) = false then JOURNAL_ERR_INVALID
       else if env.writeAok = false then JOURNAL_ERR_IOFAIL
       else if env.writeBok = false then JOURNAL_ERR_IOFAIL
       else JOURNAL_OK) := by
  cases hvv : journal_validate (journal_write_updated rec now) <;>
    cases hA : env.writeAok <;> cases hB : env.writeBok <;>
      simp [journal_write, write_page, hvv, hA, hB, JOURNAL_OK, JOURNAL_ERR_IOFAIL]

lemma journal_write_disk_log_Afail (rec : BootRecord) (env : JournalEnv) (disk : Disk)
    (now : Nat) (hv : journal_validate (journal_write_updated rec now) = true)
    (hA : env.writeAok = false) :
    (journal_write true (some rec) env disk now).2 =
      ({ disk with pageA := env.tornA }, [(PageId.A, journal_write_updated rec now)]) := by
  simp [journal_write, write_page, hv, hA, JOURNAL_OK, JOURNAL_ERR_IOFAIL]

lemma journal_write_log_B_mem (rec : BootRecord) (env : JournalEnv) (disk : Disk)
    (now : Nat) (r : BootRecord) :
    (PageId.B, r) ∈ (journal_write true (some rec) env disk now).2.2 →
      env.writeAok = true := by
  cases hvv : journal_validate (journal_write_updated rec now) <;>
    cases hA : env.writeAok <;>
      simp [journal_write, write_page, hvv, hA, JOURNAL_OK, JOURNAL_ERR_IOFAIL]

/-- An environment where the write of Page A fails and everything else
succeeds. -/
def envAfail : JournalEnv :=
  { readAok := true, readBok := true, writeAok := false, writeBok := true,
    tornA := rec_default0, tornB := rec_default0 }

/-- An environment where both repair writes fail and both reads succeed. -/
def envWfail : JournalEnv :=
  { readAok := true, readBok := true, writeAok := false, writeBok := false,
    tornA := rec_default0, tornB := rec_default0 }

/-- A disk with a valid Page A and a corrupt Page B (zeroed trailer). -/
def diskAcorruptB : Disk :=
  { pageA := journal_create_default 0, pageB := { rec_default0 with trailer := 0 } }

/-- A semantically valid record whose `crc32` and `trailer` hold garbage. -/
def recGarbage : BootRecord :=
  { rec_default0 with tier := 2, crc32 := 123456789, trailer := 999 }

/-- C2: on an initialized journal with a semantically valid record, if the
write of Page A (with its fsync) fails, `journal_write` returns the IO
failure and Page B on disk still holds its previous content; moreover, in any
run of `journal_write`, a write of Page B is issued only when Page A's write
succeeded. -/
theorem journal_write_pageA_failure (rec : BootRecord) (env : JournalEnv) (disk : Disk)
    (now : Nat)
    (hver : rec.version = JOURNAL_VERSION) (ht1 : TIER_1 ≤ rec.tier)
    (ht3 : rec.tier ≤ TIER_3) (hA : env.writeAok = false) :
    (journal_write true (some rec) env disk now).1 = JOURNAL_ERR_IOFAIL
    ∧ (journal_write true (some rec) env disk now).2.1.pageB = disk.pageB
    ∧ (∀ env2 : JournalEnv, ∀ r : BootRecord,
        (PageId.B, r) ∈ (journal_write true (some rec) env2 disk now).2.2 →
          env2.writeAok = true) := by
  have hv : journal_validate (journal_write_updated rec now) = true :=
    (journal_validate_updated_iff rec now).mpr ⟨hver, ht1, ht3⟩
  refine ⟨?_, ?_, ?_⟩
  · rw [journal_write_status, if_neg (by simp [hv]), if_pos hA]
  · rw [journal_write_disk_log_Afail rec env disk now hv hA]
  · intro env2 r hmem
    exact journal_write_log_B_mem rec env2 disk now r hmem

/-- C2 witness: concrete page-A write failure leaves Page B as it was. -/
theorem journal_write_pageA_failure_witness :
    (journal_write true (some rec_default0) envAfail diskAB 7).1 = JOURNAL_ERR_IOFAIL ∧
      (journal_write true (some rec_default0) envAfail diskAB 7).2.1.pageB = diskAB.pageB :=
  ⟨(journal_write_pageA_failure rec_default0 envAfail diskAB 7 (by decide) (by decide)
      (by decide) rfl).1,
   (journal_write_pageA_failure rec_default0 envAfail diskAB 7 (by decide) (by decide)
      (by decide) rfl).2.1⟩

/-- C9: `journal_write` on an initialized journal regenerates timestamp,
trailer and crc32 before validating, so it returns `JOURNAL_ERR_INVALID`
exactly when the caller's `version ≠ 1` or `tier ∉ {1,2,3}`, and — when both
page writes succeed — returns `JOURNAL_OK` for any record with `version = 1`
and `tier ∈ {1,2,3}`, no matter what the input's `crc32` and `trailer`
hold. -/
theorem journal_write_validates_semantic_fields (rec : BootRecord) (env : JournalEnv)
    (disk : Disk) (now : Nat) :
    ((journal_write true (some rec) env disk now).1 = JOURNAL_ERR_INVALID ↔
      ¬ (rec.version = JOURNAL_VERSION ∧ TIER_1 ≤ rec.tier ∧ rec.tier ≤ TIER_3))
    ∧ (env.writeAok = true → env.writeBok = true →
        rec.version = JOURNAL_VERSION → TIER_1 ≤ rec.tier → rec.tier ≤ TIER_3 →
        (journal_write true (some rec) env disk now).1 = JOURNAL_OK) := by
  constructor
  · rw [journal_write_status]
    by_cases hv : journal_validate (journal_write_updated rec now) = true
    · have hsem := (journal_validate_updated_iff rec now).mp hv
      rw [if_neg (by simp [hv])]
      constructor
      · intro hEq
        exfalso
        split_ifs at hEq <;> exact absurd hEq (by decide)
      · intro hns
        exact (hns hsem).elim
    · have hvf : journal_validate (journal_write_updated rec now) = false := by
        revert hv
        cases journal_validate (journal_write_updated rec now) <;> simp
      have hnsem : ¬ (rec.version = JOURNAL_VERSION ∧ TIER_1 ≤ rec.tier ∧
          rec.tier ≤ TIER_3) :=
        fun hs => hv ((journal_validate_updated_iff rec now).mpr hs)
      rw [if_pos hvf]
      simp [hnsem]
  · intro hA hB h1 h2 h3
    have hv : journal_validate (journal_write_updated rec now) = true :=
      (journal_validate_updated_iff rec now).mpr ⟨h1, h2, h3⟩
    rw [journal_write_status, if_neg (by simp [hv]), if_neg (by simp [hA]),
      if_neg (by simp [hB])]

/-- C9 witness: a record with garbage `crc32`/`trailer` but `version = 1`,
`tier = 2` commits with `JOURNAL_OK`. -/
theorem journal_write_validates_semantic_fields_witness :
    (journal_write true (some recGarbage) envAllOk diskAB 9).1 = JOURNAL_OK :=
  (journal_write_validates_semantic_fields recGarbage envAllOk diskAB 9).2 rfl rfl
    (by decide) (by decide) (by decide)

/-- C1: when both on-disk pages hold valid records, `journal_recover` returns
`JOURNAL_OK` with the record of the page of larger `boot_count` (Page A on a
tie), leaves the disk untouched and issues no repair write. -/
theorem journal_recover_both_valid (env : JournalEnv) (disk : Disk) (now : Nat)
    (ha : env.readAok = true) (hva : journal_validate disk.pageA = true)
    (hb : env.readBok = true) (hvb : journal_validate disk.pageB = true) :
    (journal_recover true env disk now).1 = JOURNAL_OK
    ∧ (disk.pageB.boot_count ≤ disk.pageA.boot_count →
        (journal_recover true env disk now).2.1 = some disk.pageA)
    ∧ (disk.pageA.boot_count < disk.pageB.boot_count →
        (journal_recover true env disk now).2.1 = some disk.pageB)
    ∧ (journal_recover true env disk now).2.2.1 = disk
    ∧ (journal_recover true env disk now).2.2.2 = [] := by
  have hrec : journal_recover true env disk now =
      (if disk.pageA.boot_count ≥ disk.pageB.boot_count then
        (JOURNAL_OK, some disk.pageA, disk, [])
       else (JOURNAL_OK, some disk.pageB, disk, [])) := by
    simp [journal_recover, ha, hva, hb, hvb]
  refine ⟨?_, ?_, ?_, ?_, ?_⟩
  · rw [hrec]; split <;> rfl
  · intro h; rw [hrec, if_pos (by omega)]
  · intro h; rw [hrec, if_neg (by omega)]
  · rw [hrec]; split <;> rfl
  · rw [hrec]; split <;> rfl

/-- C1 witness: two valid pages with equal `boot_count` recover Page A. -/
theorem journal_recover_both_valid_witness :
    (journal_recover true envAllOk diskAB 7).2.1 = some (journal_create_default 0) :=
  (journal_recover_both_valid envAllOk diskAB 7 rfl (by decide) rfl (by decide)).2.1
    (by decide)

/-- C10: on an initialized journal, `journal_recover` always returns
`JOURNAL_OK` — in the only-A-valid, only-B-valid and neither-valid cases it
hands back the surviving (or synthesized default) record for every
environment, in particular when the repair write-back to the other page (or
to both pages) fails at the IO level; neither corruption nor repair-write
failure reaches the caller. -/
theorem journal_recover_ignores_repair_write_failures (env : JournalEnv) (disk : Disk)
    (now : Nat) :
    (journal_recover true env disk now).1 = JOURNAL_OK
    ∧ ((env.readAok && journal_validate disk.pageA) = true →
       (env.readBok && journal_validate disk.pageB) = false →
        (journal_recover true env disk now).2.1 = some disk.pageA)
    ∧ ((env.readAok && journal_validate disk.pageA) = false →
       (env.readBok && journal_validate disk.pageB) = true →
        (journal_recover true env disk now).2.1 = some disk.pageB)
    ∧ ((env.readAok && journal_validate disk.pageA) = false →
       (env.readBok && journal_validate disk.pageB) = false →
        (journal_recover true env disk now).2.1 = some (journal_create_default now)) := by
  cases hA : (env.readAok && journal_validate disk.pageA) <;>
    cases hB : (env.readBok && journal_validate disk.pageB) <;>
      refine ⟨?_, ?_, ?_, ?_⟩ <;>
        simp [journal_recover, hA, hB] <;> split <;> rfl

/-- C10 witness: valid Page A, corrupt Page B, both repair writes failing —
recovery still returns `JOURNAL_OK`'s record from Page A. -/
theorem journal_recover_ignores_repair_write_failures_witness :
    (journal_recover true envWfail diskAcorruptB 3).2.1 = some diskAcorruptB.pageA :=
  (journal_recover_ignores_repair_write_failures envWfail diskAcorruptB 3).2.1
    (by decide) (by decide)
